import Mathlib

/-!
Shallow embedding of the `maricarril/backend` RAG HTTP backend.

The repository contains several near-duplicate revisions of the same
Express server:

* `src/index.js`            — an early stub (health + simulated answer);
* `src/server.js`           — the main revision: local embeddings,
                              vector query by embedding, 503 catch;
* `src/unnamed/part_000`    — revision querying by raw text, 500 catch;
* `src/unnamed/part_001`    — revision with verbose validation
                              (forbidden-phrase patterns), logging on all
                              outcomes, 500 catch with a `message` field;
* `src/unnamed/part_002`    — two files: a revision close to `server.js`
                              with a 500 catch (first document), and the
                              fallback-tolerant revision with an inner
                              try/catch around the vector query and a
                              `mode` field (second document), plus an
                              ingestion script.

Each `/ask` handler is embedded as a pure function from the request
question (a JavaScript value), the caller ip, a timestamp and a `World`
describing the outcomes of the external collaborators (embedding
pipeline, vector store, LLM) to the HTTP response together with the
trace of external calls attempted (including log writes).
-/

namespace LegalBackend

/-- A JavaScript value as far as the validators inspect one:
`typeof x === "string"` and truthiness are the only observations made. -/
inductive JSValue where
  | vstr : String → JSValue
  | vnum : Int → JSValue
  | vbool : Bool → JSValue
  | vnull : JSValue
  | vundefined : JSValue
  | vobj : JSValue
deriving DecidableEq, Repr

/-- JavaScript truthiness for the modelled values
(`""`, `0`, `false`, `null`, `undefined` are falsy). -/
def jsTruthy : JSValue → Bool
  | .vstr s => !(s == "")
  | .vnum n => !(n == 0)
  | .vbool b => b
  | .vnull => false
  | .vundefined => false
  | .vobj => true

/-- `typeof question === "string"`. -/
def isStringVal : JSValue → Bool
  | .vstr _ => true
  | _ => false

/-- The underlying string of a string value (only ever used under an
`isStringVal` guard, mirroring code paths reached only for strings). -/
def strOf : JSValue → String
  | .vstr s => s
  | _ => ""

/-- `question?.length || 0` as used by part_001's invalid-path log:
a string's length, `0` for any non-string (whose `?.length` is
`undefined`) and `0` for the empty string (`0 || 0`). -/
def jsLengthOrZero : JSValue → Nat
  | .vstr s => s.length
  | _ => 0

/-- Metadata record attached to a retrieved document:
arbitrary key/value pairs. -/
abbrev Metadata := List (String × String)

/-- A JSON value as it appears in response bodies and log records. -/
inductive JVal where
  | s : String → JVal
  | n : Nat → JVal
  | null : JVal
  | arr : List Metadata → JVal
deriving DecidableEq, Repr

/-- A JSON object: ordered key/value pairs, as serialized. -/
abbrev JObj := List (String × JVal)

/-- Field lookup in a JSON object. -/
def JObj.get (o : JObj) (k : String) : Option JVal :=
  (o.find? (fun kv => kv.1 == k)).map (fun kv => kv.2)

/-- An HTTP response: status code and JSON body. -/
structure HttpResponse where
  status : Nat
  body : JObj
deriving DecidableEq, Repr

/-- One attempted external interaction of a handler run. -/
inductive ExtCall where
  | embed : String → ExtCall
  | queryVec : List Int → Nat → ExtCall
  | queryText : String → Nat → ExtCall
  | complete : String → String → ExtCall
  | logWrite : JObj → ExtCall
deriving DecidableEq, Repr

/-- Outcome of one awaited external call: the value, or the thrown
error's `.message`. -/
inductive CallResult (α : Type) where
  | ok : α → CallResult α
  | failure : String → CallResult α
deriving DecidableEq, Repr

/-- Shape of a Chroma query result: `documents` and `metadatas` hold one
inner list per query vector/text. -/
structure QueryResult where
  documents : List (List String)
  metadatas : List (List Metadata)
deriving DecidableEq, Repr

/-- The behaviour of the external collaborators during one request.
`embedRes` is the outcome of `getEmbedding`, `storeRes` the combined
outcome of the collection fetch and the vector query, `llmRes` the
outcome of `groq.chat.completions.create`, and `logFails` whether the
asynchronous `fs.appendFile` of the log line fails. -/
structure World where
  embedRes : CallResult (List Int)
  storeRes : CallResult QueryResult
  llmRes : CallResult String
  logFails : Bool
deriving DecidableEq, Repr

/-- `World` with the LLM outcome replaced. -/
def World.setLlm (w : World) (r : CallResult String) : World :=
  ⟨w.embedRes, w.storeRes, r, w.logFails⟩

/-- `World` with the log-write failure flag replaced. -/
def World.setLogFails (w : World) (b : Bool) : World :=
  ⟨w.embedRes, w.storeRes, w.llmRes, b⟩

/-- Whitespace as JavaScript's `String.prototype.trim` strips it
(the common members of the ECMAScript WhiteSpace/LineTerminator sets;
the remaining exotic Unicode space separators never matter here). -/
def jsWhitespaceChar (c : Char) : Bool :=
  c == ' ' || c == '\t' || c == '\n' || c == '\r' ||
  c == '\x0b' || c == '\x0c' || c == ' ' || c == '﻿'

/-- JavaScript's `question.trim()`: strip leading and trailing
whitespace. Defined structurally on the character list so that it
evaluates on literals. -/
def jsTrim (s : String) : String :=
  ⟨(((s.data.dropWhile jsWhitespaceChar).reverse).dropWhile
      jsWhitespaceChar).reverse⟩

/-- `validateQuestion` of `src/server.js` (also part_000 and both
part_002 revisions):

    if (!question || typeof question !== "string") return "Pregunta inválida";
    if (question.trim().length === 0) return "Pregunta vacía";
    if (question.length > 500) return "Pregunta demasiado larga";
    return null;
-/
def validateQuestion (question : JSValue) : Option String :=
  if !jsTruthy question || !isStringVal question then some "Pregunta inválida"
  else if (jsTrim (strOf question)).length == 0 then some "Pregunta vacía"
  else if (strOf question).length > 500 then some "Pregunta demasiado larga"
  else none

/-- The fixed zero-result answer of the revisions that have the
zero-document branch. -/
def noInfoAnswer : String :=
  "No se encontró información relevante en la base documental."

/-- System prompt of `src/server.js` (template literal, surrounding
newlines and indentation included). -/
def srvSystemPrompt : String :=
  "\nSos un asistente jurídico argentino.\nEl CONTEXTO contiene artículos reales del CCyC.\nRespondé solo con ese material.\nSi no surge del contexto, decí:\n\"No surge del material proporcionado\".\n          "

/-- User message of `src/server.js`, part_000 and the first part_002
revision: `CONTEXTO:\n${context}\n\nPREGUNTA:\n${question}`. -/
def ctxUserPrompt (context question : String) : String :=
  "CONTEXTO:\n" ++ context ++ "\n\nPREGUNTA:\n" ++ question

/-- Catch body of `src/server.js`:
`503 {error: "Servicio temporalmente no disponible", detail: err.message}`. -/
def srvCatchBody (m : String) : JObj :=
  [("error", JVal.s "Servicio temporalmente no disponible"), ("detail", JVal.s m)]

/-- Log record of `logQuery({ip, status: "ok"})` in `src/server.js`
(`ts` appended by `logQuery` itself). -/
def srvOkLog (ip ts : String) : JObj :=
  [("ip", JVal.s ip), ("status", JVal.s "ok"), ("ts", JVal.s ts)]

/-- The `/ask` handler of `src/server.js`.

Steps: validate; `getEmbedding(question)`; `getCollection()` +
`col.query({queryEmbeddings: [embedding], nResults: 3})` (combined in
`storeRes`); zero-document early return; Groq completion; success
response then `logQuery({ip, status: "ok"})`. Any exception inside the
`try` is answered by the 503 catch; no log write happens on the invalid,
zero-document or error paths. -/
def srvAsk (question : JSValue) (ip ts : String) (w : World) :
    HttpResponse × List ExtCall :=
  match validateQuestion question with
  | some error => (⟨400, [("error", JVal.s error)]⟩, [])
  | none =>
    let q := strOf question
    match w.embedRes with
    | .failure m => (⟨503, srvCatchBody m⟩, [.embed q])
    | .ok embedding =>
      match w.storeRes with
      | .failure m => (⟨503, srvCatchBody m⟩, [.embed q, .queryVec embedding 3])
      | .ok result =>
        let documents := result.documents.headD []
        let metadatas := result.metadatas.headD []
        if documents.length == 0 then
          (⟨200, [("answer", JVal.s noInfoAnswer), ("sources", JVal.arr [])]⟩,
           [.embed q, .queryVec embedding 3])
        else
          let context := String.intercalate "\n\n" documents
          match w.llmRes with
          | .failure m =>
            (⟨503, srvCatchBody m⟩,
             [.embed q, .queryVec embedding 3,
              .complete srvSystemPrompt (ctxUserPrompt context q)])
          | .ok answer =>
            (⟨200, [("question", JVal.s q), ("answer", JVal.s answer),
                    ("sources", JVal.arr metadatas)]⟩,
             [.embed q, .queryVec embedding 3,
              .complete srvSystemPrompt (ctxUserPrompt context q),
              .logWrite (srvOkLog ip ts)])

/-- `GET /health` of `src/server.js`. -/
def srvHealth : HttpResponse :=
  ⟨200, [("status", JVal.s "ok"), ("service", JVal.s "legal-backend")]⟩

/-! ## part_000: the revision querying Chroma by raw text -/

/-- System prompt of part_000. -/
def p0SystemPrompt : String :=
  "Sos un asistente jurídico argentino. Respondés de manera técnica, clara y fundada en el Código Civil y Comercial."

/-- Catch body of part_000 and of the first part_002 revision:
`500 {error: "Error interno", detail: err.message}`. -/
def internalErrorBody (m : String) : JObj :=
  [("error", JVal.s "Error interno"), ("detail", JVal.s m)]

/-- The `/ask` handler of part_000: same validation and zero-document
branch as `src/server.js`, but the query is by raw text
(`queryTexts: [question]`), there is no embedding step (the collection
is fetched at startup), and the catch answers
`500 {error: "Error interno", detail}`. -/
def p0Ask (question : JSValue) (ip ts : String) (w : World) :
    HttpResponse × List ExtCall :=
  match validateQuestion question with
  | some error => (⟨400, [("error", JVal.s error)]⟩, [])
  | none =>
    let q := strOf question
    match w.storeRes with
    | .failure m => (⟨500, internalErrorBody m⟩, [.queryText q 3])
    | .ok result =>
      let documents := result.documents.headD []
      let metadatas := result.metadatas.headD []
      if documents.length == 0 then
        (⟨200, [("answer", JVal.s noInfoAnswer), ("sources", JVal.arr [])]⟩,
         [.queryText q 3])
      else
        let context := String.intercalate "\n\n" documents
        match w.llmRes with
        | .failure m =>
          (⟨500, internalErrorBody m⟩,
           [.queryText q 3, .complete p0SystemPrompt (ctxUserPrompt context q)])
        | .ok answer =>
          (⟨200, [("question", JVal.s q), ("answer", JVal.s answer),
                  ("sources", JVal.arr metadatas)]⟩,
           [.queryText q 3, .complete p0SystemPrompt (ctxUserPrompt context q),
            .logWrite (srvOkLog ip ts)])

/-- `GET /health` of part_000. -/
def p0Health : HttpResponse :=
  ⟨200, [("status", JVal.s "ok"), ("service", JVal.s "legal-backend")]⟩

/-! ## part_002, first document: embedding query with a 500 catch -/

/-- System prompt of the first part_002 revision (template literal with
tab-indented lines). -/
def p2aSystemPrompt : String :=
  "\n\t\t\tSos un asistente jurídico argentino.\n\n\t\t\tEl CONTEXTO provisto contiene artículos REALES del Código Civil y Comercial de la Nación.\n\t\t\tTu tarea es responder ÚNICAMENTE en base a ese contexto.\n\n\t\t\tREGLAS OBLIGATORIAS:\n\t\t\t- NO inventes artículos ni numeraciones\n\t\t\t- NO contradigas el contexto\n\t\t\t- SI un artículo aparece en el contexto, asumí que EXISTE\n\t\t\t- Respondé de forma técnica, clara y precisa\n\t\t\t- Podés citar textualmente el artículo si corresponde\n\n\t\t\tSi la respuesta no surge del contexto, respondé:\n\t\t\t\"No surge del material proporcionado\".\n\t\t  "

/-- The `/ask` handler of the first part_002 revision: identical flow to
`src/server.js` (embedding step, vector query, zero-document branch) but
the catch answers `500 {error: "Error interno", detail}` and the
collection is fetched at startup rather than lazily. -/
def p2aAsk (question : JSValue) (ip ts : String) (w : World) :
    HttpResponse × List ExtCall :=
  match validateQuestion question with
  | some error => (⟨400, [("error", JVal.s error)]⟩, [])
  | none =>
    let q := strOf question
    match w.embedRes with
    | .failure m => (⟨500, internalErrorBody m⟩, [.embed q])
    | .ok embedding =>
      match w.storeRes with
      | .failure m => (⟨500, internalErrorBody m⟩, [.embed q, .queryVec embedding 3])
      | .ok result =>
        let documents := result.documents.headD []
        let metadatas := result.metadatas.headD []
        if documents.length == 0 then
          (⟨200, [("answer", JVal.s noInfoAnswer), ("sources", JVal.arr [])]⟩,
           [.embed q, .queryVec embedding 3])
        else
          let context := String.intercalate "\n\n" documents
          match w.llmRes with
          | .failure m =>
            (⟨500, internalErrorBody m⟩,
             [.embed q, .queryVec embedding 3,
              .complete p2aSystemPrompt (ctxUserPrompt context q)])
          | .ok answer =>
            (⟨200, [("question", JVal.s q), ("answer", JVal.s answer),
                    ("sources", JVal.arr metadatas)]⟩,
             [.embed q, .queryVec embedding 3,
              .complete p2aSystemPrompt (ctxUserPrompt context q),
              .logWrite (srvOkLog ip ts)])

/-- `GET /health` of the first part_002 revision. -/
def p2aHealth : HttpResponse :=
  ⟨200, [("status", JVal.s "ok"), ("service", JVal.s "legal-backend")]⟩

/-! ## part_002, second document: the fallback-tolerant revision -/

/-- System prompt of the fallback revision when the vector store
answered (`hasContext`). -/
def fbSystemRag : String :=
  "\nSos un asistente jurídico argentino.\nRespondé SOLO en base al CONTEXTO.\nSi no surge del contexto, decí:\n\"No surge del material proporcionado\".\n            "

/-- System prompt of the fallback revision in degraded mode. -/
def fbSystemNoCtx : String :=
  "\nSos un asistente general.\nLa base documental no está disponible.\nRespondé de forma orientativa y sin citar artículos.\n            "

/-- Log record of `logQuery({ip, status: "ok", mode})` in the fallback
revision. -/
def fbOkLog (ip mode ts : String) : JObj :=
  [("ip", JVal.s ip), ("status", JVal.s "ok"), ("mode", JVal.s mode),
   ("ts", JVal.s ts)]

/-- The `/ask` handler of the fallback-tolerant revision (second
document of part_002).

The collection fetch and the vector query sit inside an inner
try/catch: on failure `hasContext` becomes `false` and the run continues
with empty `documents`/`metadatas` instead of propagating. There is no
zero-document early return: the LLM is always called, with the
context-bearing prompt when `hasContext` and the degraded prompt
otherwise. The success body carries `mode: "rag" | "llm-only"` and
empties `sources` in degraded mode; the outer catch answers
`500 {error: "Error interno", detail}`. -/
def fbAsk (question : JSValue) (ip ts : String) (w : World) :
    HttpResponse × List ExtCall :=
  match validateQuestion question with
  | some error => (⟨400, [("error", JVal.s error)]⟩, [])
  | none =>
    let q := strOf question
    match w.embedRes with
    | .failure m => (⟨500, internalErrorBody m⟩, [.embed q])
    | .ok embedding =>
      let stepTwo :=
        match w.storeRes with
        | .failure _ => (([] : List String), ([] : List Metadata), false)
        | .ok result => (result.documents.headD [], result.metadatas.headD [], true)
      let documents := stepTwo.1
      let metadatas := stepTwo.2.1
      let hasContext := stepTwo.2.2
      let context := String.intercalate "\n\n" documents
      let sys := if hasContext then fbSystemRag else fbSystemNoCtx
      let user := if hasContext then ctxUserPrompt context q
                  else "PREGUNTA:\n" ++ q
      match w.llmRes with
      | .failure m =>
        (⟨500, internalErrorBody m⟩,
         [.embed q, .queryVec embedding 3, .complete sys user])
      | .ok answer =>
        (⟨200, [("question", JVal.s q), ("answer", JVal.s answer),
                ("sources", JVal.arr (if hasContext then metadatas else [])),
                ("mode", JVal.s (if hasContext then "rag" else "llm-only"))]⟩,
         [.embed q, .queryVec embedding 3, .complete sys user,
          .logWrite (fbOkLog ip (if hasContext then "rag" else "fallback") ts)])

/-- `GET /health` of the fallback revision. -/
def fbHealth : HttpResponse :=
  ⟨200, [("status", JVal.s "ok"), ("service", JVal.s "legal-backend")]⟩

/-! ## part_001: verbose validation, logging on every outcome -/

/-- Case folding as the `/i` regex flag applies it to the forbidden
patterns: ASCII letters plus the accented vowels appearing in them. -/
def lowerEs (c : Char) : Char :=
  if c = 'Á' then 'á'
  else if c = 'É' then 'é'
  else if c = 'Í' then 'í'
  else if c = 'Ó' then 'ó'
  else if c = 'Ú' then 'ú'
  else c.toLower

/-- `pat` is a prefix of `s` (on character lists). -/
def charsHavePre : List Char → List Char → Bool
  | _, [] => true
  | [], _ :: _ => false
  | c :: cs, p :: ps => c == p && charsHavePre cs ps

/-- `pat` occurs somewhere in `s` (on character lists). -/
def charsContain (s pat : List Char) : Bool :=
  match s with
  | [] => pat.isEmpty
  | _ :: rest => charsHavePre s pat || charsContain rest pat

/-- `pat` occurs as a substring of `s`. -/
def containsSub (s pat : String) : Bool :=
  charsContain s.data pat.data

/-- The forbidden-pattern test of part_001's validator. Each regex is an
alternation of literal phrases tested case-insensitively on the trimmed
question; the alternations `ignor(a|á)` and `act(u|ú)a` are expanded. -/
def p1Forbidden (trimmed : String) : Bool :=
  let l : String := ⟨trimmed.data.map lowerEs⟩
  containsSub l "ignora las reglas" || containsSub l "ignorá las reglas" ||
  containsSub l "actua como abogado" || containsSub l "actúa como abogado" ||
  containsSub l "da consejo legal" ||
  containsSub l "responde como juez" ||
  containsSub l "sin disclaimer" ||
  containsSub l "definitivamente"

/-- `validateQuestion` of part_001: falsy check, type check, trimmed
emptiness, trimmed length over 500 (note: the *trimmed* length, unlike
the other revisions), then the forbidden patterns. -/
def p1Validate (question : JSValue) : Option String :=
  if !jsTruthy question then some "La pregunta es obligatoria."
  else if !isStringVal question then some "La pregunta debe ser un texto."
  else
    let trimmed := jsTrim (strOf question)
    if trimmed.length == 0 then some "La pregunta no puede estar vacía."
    else if trimmed.length > 500 then some "La pregunta es demasiado extensa."
    else if p1Forbidden trimmed then
      some "La consulta contiene instrucciones no permitidas."
    else none

/-- Log record of part_001's `logQuery({ip, questionLength, status,
error})` (its `error: error || null`). -/
def p1LogRecord (ts ip : String) (len : Nat) (status : String)
    (err : Option String) : JObj :=
  [("timestamp", JVal.s ts), ("ip", JVal.s ip), ("questionLength", JVal.n len),
   ("status", JVal.s status),
   ("error", match err with | some e => JVal.s e | none => JVal.null)]

/-- System prompt of part_001. -/
def p1SystemPrompt : String :=
  "\nSos un asistente jurídico argentino.\nRespondés de manera formal, técnica y precisa.\nFundás tus respuestas exclusivamente en el Código Civil y Comercial.\nNo inventás jurisprudencia ni doctrina.\nSi la información no surge del contexto, lo aclarás expresamente.\n"

/-- User message of part_001. -/
def p1UserPrompt (context question : String) : String :=
  "\nCONTEXTO NORMATIVO:\n" ++ context ++ "\n\nPREGUNTA:\n" ++ question ++
  "\n\nRESPONDE DE MANERA FUNDADA Y CLARA.\n"

/-- Message of the TypeError thrown by
`results.documents[0].join("\n\n")` when `results.documents` is empty
(`[0]` is `undefined`). The exact engine wording is
environment-dependent; a fixed representative message stands for it. -/
def undefinedJoinMsg : String := "Cannot read properties of undefined"

/-- The `/ask` handler of part_001.

Differences from the other revisions: its own validator and a log write
on the invalid path (`status: "invalid"`, with `question?.length || 0`);
the 400 body is `{error: "Consulta inválida", detail}`; the query is by
raw text against the `juridico` collection; there is no zero-document
branch (`results.documents[0]` without a default: an empty `documents`
array raises a TypeError caught by the catch); the catch logs
`status: "error"` and answers `500 {error: "Error RAG", message}` — the
raw exception text sits in a field named `message`, not `detail`; the
success path logs `status: "ok"`. -/
def p1Ask (question : JSValue) (ip ts : String) (w : World) :
    HttpResponse × List ExtCall :=
  match p1Validate question with
  | some validationError =>
    (⟨400, [("error", JVal.s "Consulta inválida"),
            ("detail", JVal.s validationError)]⟩,
     [.logWrite (p1LogRecord ts ip (jsLengthOrZero question) "invalid"
        (some validationError))])
  | none =>
    let q := strOf question
    match w.storeRes with
    | .failure m =>
      (⟨500, [("error", JVal.s "Error RAG"), ("message", JVal.s m)]⟩,
       [.queryText q 3,
        .logWrite (p1LogRecord ts ip q.length "error" (some m))])
    | .ok result =>
      match result.documents with
      | [] =>
        (⟨500, [("error", JVal.s "Error RAG"),
                ("message", JVal.s undefinedJoinMsg)]⟩,
         [.queryText q 3,
          .logWrite (p1LogRecord ts ip q.length "error" (some undefinedJoinMsg))])
      | docs0 :: _ =>
        let context := String.intercalate "\n\n" docs0
        match w.llmRes with
        | .failure m =>
          (⟨500, [("error", JVal.s "Error RAG"), ("message", JVal.s m)]⟩,
           [.queryText q 3, .complete p1SystemPrompt (p1UserPrompt context q),
            .logWrite (p1LogRecord ts ip q.length "error" (some m))])
        | .ok answer =>
          (⟨200, [("question", JVal.s q), ("answer", JVal.s answer),
                  ("sources", JVal.arr (result.metadatas.headD []))]⟩,
           [.queryText q 3, .complete p1SystemPrompt (p1UserPrompt context q),
            .logWrite (p1LogRecord ts ip q.length "ok" none)])

/-- `GET /health` of part_001: `res.json({status: "ok"})` — no
`service` field. -/
def p1Health : HttpResponse :=
  ⟨200, [("status", JVal.s "ok")]⟩

/-! ## index.js: the early stub -/

/-- The `/ask` handler of the `src/index.js` stub. -/
def idxAsk (question : JSValue) : HttpResponse :=
  if !jsTruthy question then ⟨400, [("error", JVal.s "Missing question")]⟩
  else ⟨200, [("answer", JVal.s "Respuesta simulada. El sistema está funcionando."),
              ("sources", JVal.arr [])]⟩

/-- `GET /health` of the `src/index.js` stub. -/
def idxHealth : HttpResponse :=
  ⟨200, [("status", JVal.s "ok"), ("service", JVal.s "legal-backend")]⟩

/-- The log-write entries of a call trace, in order. -/
def logWritesOf (calls : List ExtCall) : List JObj :=
  calls.filterMap (fun c => match c with | .logWrite r => some r | _ => none)

/-- A call directed at one of the three providers (embedding pipeline,
vector store, LLM), as opposed to a log write. -/
def ExtCall.isProviderCall : ExtCall → Bool
  | .embed _ => true
  | .queryVec _ _ => true
  | .queryText _ _ => true
  | .complete _ _ => true
  | .logWrite _ => false

/-- Whether an awaited call returned normally. -/
def CallResult.isOk {α : Type} : CallResult α → Bool
  | .ok _ => true
  | .failure _ => false

/-- The full-success condition of the embed-then-query revisions
(`src/server.js` and the first part_002 revision): valid question,
embedding produced, vector query succeeded with at least one document,
LLM answered. Exactly these runs reach the success `res.json` and its
log write. -/
def strictRagSuccess (q : JSValue) (w : World) : Bool :=
  (validateQuestion q).isNone && w.embedRes.isOk &&
  (match w.storeRes with
   | .ok r => !((r.documents.headD []).length == 0)
   | .failure _ => false) &&
  w.llmRes.isOk

/-- The full-success condition of part_000 (which has no embedding
step). -/
def p0Success (q : JSValue) (w : World) : Bool :=
  (validateQuestion q).isNone &&
  (match w.storeRes with
   | .ok r => !((r.documents.headD []).length == 0)
   | .failure _ => false) &&
  w.llmRes.isOk

/-- The condition under which the fallback revision reaches its final
success response and its single log write: valid question, embedding
produced, LLM answered — the vector-store outcome only selects the
mode, never aborts the request. -/
def fbSuccess (q : JSValue) (w : World) : Bool :=
  (validateQuestion q).isNone && w.embedRes.isOk && w.llmRes.isOk

/-- A sample fully-successful world used to instantiate theorems. -/
def w0 : World :=
  ⟨.ok [1, 2], .ok ⟨[["ARTÍCULO 1710.- Deber de prevención del daño."]],
                    [[[("articulo", "1710")]]]⟩,
   .ok "El artículo 1710 establece el deber de prevención del daño.",
   false⟩

/-- A world whose vector-store interaction fails. -/
def wStoreErr : World :=
  ⟨.ok [1, 2], .failure "fetch failed", .ok "respuesta", false⟩

/-- A world whose vector query succeeds with zero matching documents. -/
def wNoDocs : World :=
  ⟨.ok [1, 2], .ok ⟨[[]], [[]]⟩, .ok "respuesta", false⟩

/-- A world whose LLM call fails. -/
def wLlmErr : World :=
  ⟨.ok [1, 2], .ok ⟨[["ARTÍCULO 1710.- Deber de prevención del daño."]],
                    [[[("articulo", "1710")]]]⟩,
   .failure "llm down", false⟩

/-! ## Helper lemmas -/

/-- `validateQuestion` on a string input, spelled as nested
propositional conditionals. -/
theorem validateQuestion_vstr (s : String) :
    validateQuestion (JSValue.vstr s) =
      if s = "" then some "Pregunta inválida"
      else if (jsTrim s).length = 0 then some "Pregunta vacía"
      else if 500 < s.length then some "Pregunta demasiado larga"
      else none := by
  by_cases h0 : s = "" <;>
    by_cases h1 : (jsTrim s).length = 0 <;>
      by_cases h2 : 500 < s.length <;>
        simp [validateQuestion, jsTruthy, isStringVal, strOf, h0, h1, h2]

/-- `validateQuestion` rejects every non-string value as invalid. -/
theorem validateQuestion_nonstring (q : JSValue) (h : isStringVal q = false) :
    validateQuestion q = some "Pregunta inválida" := by
  cases q <;> simp_all [validateQuestion, isStringVal]

/-- A failed validation short-circuits `srvAsk` to the 400 response with
no external calls. -/
theorem srvAsk_invalid (q : JSValue) (ip ts : String) (w : World) (r : String)
    (h : validateQuestion q = some r) :
    srvAsk q ip ts w = (⟨400, [("error", JVal.s r)]⟩, []) := by
  simp [srvAsk, h]

/-! ## Claim theorems -/

/-- Claim C1: every request whose `question` is not a string, or trims
to the empty string, or exceeds 500 characters, is given a non-null
reason by `validateQuestion`, and the `/ask` handler of `src/server.js`
answers 400 with exactly that reason and attempts no call to the
embedding provider, the vector store or the completion provider; the
reasons follow the source order — kind check (truthy string) fails →
"Pregunta inválida", trimmed length zero → "Pregunta vacía", length over
500 → "Pregunta demasiado larga". -/
theorem c1_invalid_inputs_rejected (q : JSValue) (ip ts : String) (w : World)
    (hbad : isStringVal q = false ∨
      ∃ s, q = JSValue.vstr s ∧ ((jsTrim s).length = 0 ∨ 500 < s.length)) :
    ∃ r, validateQuestion q = some r ∧
      srvAsk q ip ts w = (⟨400, [("error", JVal.s r)]⟩, []) ∧
      (∀ c ∈ (srvAsk q ip ts w).2, c.isProviderCall = false) ∧
      ((jsTruthy q = false ∨ isStringVal q = false) → r = "Pregunta inválida") ∧
      (∀ s, q = JSValue.vstr s → s ≠ "" → (jsTrim s).length = 0 →
        r = "Pregunta vacía") ∧
      (∀ s, q = JSValue.vstr s → s ≠ "" → (jsTrim s).length ≠ 0 →
        500 < s.length → r = "Pregunta demasiado larga") := by
  have hv : ∃ r, validateQuestion q = some r := by
    rcases hbad with h | ⟨s, rfl, hs⟩
    · exact ⟨_, validateQuestion_nonstring q h⟩
    · rw [validateQuestion_vstr]
      rcases eq_or_ne s "" with h0 | h0
      · exact ⟨"Pregunta inválida", by simp [h0]⟩
      · rcases hs with h1 | h1
        · exact ⟨"Pregunta vacía", by simp [h0, h1]⟩
        · rcases eq_or_ne (jsTrim s).length 0 with h2 | h2
          · exact ⟨"Pregunta vacía", by simp [h0, h2]⟩
          · exact ⟨"Pregunta demasiado larga", by simp [h0, h2, h1]⟩
  obtain ⟨r, hr⟩ := hv
  refine ⟨r, hr, srvAsk_invalid q ip ts w r hr, ?_, ?_, ?_, ?_⟩
  · rw [srvAsk_invalid q ip ts w r hr]
    intro c hc
    simp at hc
  · intro hkind
    have : validateQuestion q = some "Pregunta inválida" := by
      rcases hkind with h | h
      · cases q with
        | vstr s =>
          have h0 : s = "" := by simpa [jsTruthy] using h
          simp [validateQuestion_vstr, h0]
        | vnum n => simp [validateQuestion, isStringVal]
        | vbool b => simp [validateQuestion, isStringVal]
        | vnull => simp [validateQuestion, isStringVal]
        | vundefined => simp [validateQuestion, isStringVal]
        | vobj => simp [validateQuestion, isStringVal]
      · exact validateQuestion_nonstring q h
    rw [this] at hr
    exact (Option.some_injective _ hr).symm
  · intro s hqs h0 h1
    have : validateQuestion q = some "Pregunta vacía" := by
      subst hqs; simp [validateQuestion_vstr, h0, h1]
    rw [this] at hr
    exact (Option.some_injective _ hr).symm
  · intro s hqs h0 h1 h2
    have : validateQuestion q = some "Pregunta demasiado larga" := by
      subst hqs; simp [validateQuestion_vstr, h0, h1, h2]
    rw [this] at hr
    exact (Option.some_injective _ hr).symm

/-- Witness for C1 at the whitespace-only question `"   "`. -/
theorem c1_witness :
    ∃ r, validateQuestion (JSValue.vstr "   ") = some r ∧
      srvAsk (JSValue.vstr "   ") "203.0.113.5" "t0" w0 =
        (⟨400, [("error", JVal.s r)]⟩, []) ∧
      (∀ c ∈ (srvAsk (JSValue.vstr "   ") "203.0.113.5" "t0" w0).2,
        c.isProviderCall = false) ∧
      ((jsTruthy (JSValue.vstr "   ") = false ∨
        isStringVal (JSValue.vstr "   ") = false) → r = "Pregunta inválida") ∧
      (∀ s, JSValue.vstr "   " = JSValue.vstr s → s ≠ "" →
        (jsTrim s).length = 0 → r = "Pregunta vacía") ∧
      (∀ s, JSValue.vstr "   " = JSValue.vstr s → s ≠ "" →
        (jsTrim s).length ≠ 0 → 500 < s.length →
        r = "Pregunta demasiado larga") :=
  c1_invalid_inputs_rejected (JSValue.vstr "   ") "203.0.113.5" "t0" w0
    (Or.inr ⟨"   ", rfl, Or.inl (by decide)⟩)

/-- Claim C4, counterexample: for `{question: ""}` the handler of
`src/server.js` answers 400 with `error` equal to `"Pregunta inválida"`
(the empty string is falsy, so the first check fires), not
`"Pregunta vacía"` as claimed. -/
theorem c4_counterexample :
    (srvAsk (JSValue.vstr "") "203.0.113.5" "t0" w0).1.body =
      [("error", JVal.s "Pregunta inválida")] ∧
    ¬ (srvAsk (JSValue.vstr "") "203.0.113.5" "t0" w0).1.body =
      [("error", JVal.s "Pregunta vacía")] := by
  constructor <;> decide

/-- Claim C4 as amended: for the empty-string question the handler of
`src/server.js` answers 400 with `error` equal to `"Pregunta inválida"`
and attempts no external call. -/
theorem c4_empty_string_amended (ip ts : String) (w : World) :
    (srvAsk (JSValue.vstr "") ip ts w).1 =
      ⟨400, [("error", JVal.s "Pregunta inválida")]⟩ ∧
    (srvAsk (JSValue.vstr "") ip ts w).2 = [] := by
  have h : validateQuestion (JSValue.vstr "") = some "Pregunta inválida" := by
    decide
  rw [srvAsk_invalid (JSValue.vstr "") ip ts w _ h]
  exact ⟨rfl, rfl⟩

/-- Claim C8, counterexample: part_001's `GET /health` body is
`{status: "ok"}` — it has no `service` field, so not every revision
answers `{status: "ok", service: "legal-backend"}`. -/
theorem c8_counterexample :
    p1Health.body.get "service" = none ∧
    ¬ p1Health = ⟨200, [("status", JVal.s "ok"),
                        ("service", JVal.s "legal-backend")]⟩ := by
  constructor <;> decide

/-- `String.intercalate` of no pieces is the empty string. -/
theorem intercalate_nil (s : String) : String.intercalate s [] = "" := rfl

set_option maxRecDepth 8000 in
/-- Claim C2, counterexample: part_001's handler has no zero-document
branch — on a successful query whose single inner `documents` list is
empty it still calls the completion provider (with an empty context) and
does not produce the fixed no-relevant-information answer. -/
theorem c2_counterexample :
    validateQuestion (JSValue.vstr "hola") = none ∧
    p1Validate (JSValue.vstr "hola") = none ∧
    wNoDocs.storeRes = CallResult.ok ⟨[[]], [[]]⟩ ∧
    ExtCall.complete p1SystemPrompt (p1UserPrompt "" "hola") ∈
      (p1Ask (JSValue.vstr "hola") "203.0.113.5" "t0" wNoDocs).2 ∧
    ¬ (p1Ask (JSValue.vstr "hola") "203.0.113.5" "t0" wNoDocs).1.body.get
        "answer" = some (JVal.s noInfoAnswer) := by
  refine ⟨by decide, by decide, rfl, ?_, by decide⟩
  decide

/-- Claim C2 as amended: for a valid question whose vector query
succeeds with zero documents, the revisions that have the zero-document
branch (`src/server.js`, part_000, the first part_002 revision) answer
200 with the fixed no-relevant-information answer and empty sources and
never call the completion provider; part_001's revision and the
fallback revision have no such branch and still call the completion
provider, with an empty context. -/
theorem c2_zero_docs_amended (s ip ts : String) (w : World) (e : List Int)
    (r : QueryResult)
    (hval : validateQuestion (JSValue.vstr s) = none)
    (hemb : w.embedRes = .ok e)
    (hstore : w.storeRes = .ok r)
    (hdocs : r.documents.headD [] = []) :
    ((srvAsk (JSValue.vstr s) ip ts w).1 =
      ⟨200, [("answer", JVal.s noInfoAnswer), ("sources", JVal.arr [])]⟩ ∧
     ∀ sys user, ExtCall.complete sys user ∉
        (srvAsk (JSValue.vstr s) ip ts w).2) ∧
    ((p0Ask (JSValue.vstr s) ip ts w).1 =
      ⟨200, [("answer", JVal.s noInfoAnswer), ("sources", JVal.arr [])]⟩ ∧
     ∀ sys user, ExtCall.complete sys user ∉
        (p0Ask (JSValue.vstr s) ip ts w).2) ∧
    ((p2aAsk (JSValue.vstr s) ip ts w).1 =
      ⟨200, [("answer", JVal.s noInfoAnswer), ("sources", JVal.arr [])]⟩ ∧
     ∀ sys user, ExtCall.complete sys user ∉
        (p2aAsk (JSValue.vstr s) ip ts w).2) ∧
    (p1Validate (JSValue.vstr s) = none → ∀ rest, r.documents = [] :: rest →
      ExtCall.complete p1SystemPrompt (p1UserPrompt "" s) ∈
        (p1Ask (JSValue.vstr s) ip ts w).2) ∧
    (ExtCall.complete fbSystemRag (ctxUserPrompt "" s) ∈
        (fbAsk (JSValue.vstr s) ip ts w).2) := by
  have hdocs' : r.documents.head?.getD [] = [] := by simpa using hdocs
  refine ⟨⟨?_, ?_⟩, ⟨?_, ?_⟩, ⟨?_, ?_⟩, ?_, ?_⟩
  · simp [srvAsk, hval, hemb, hstore, strOf, hdocs']
  · intro sys user
    simp [srvAsk, hval, hemb, hstore, strOf, hdocs']
  · simp [p0Ask, hval, hstore, strOf, hdocs']
  · intro sys user
    simp [p0Ask, hval, hstore, strOf, hdocs']
  · simp [p2aAsk, hval, hemb, hstore, strOf, hdocs']
  · intro sys user
    simp [p2aAsk, hval, hemb, hstore, strOf, hdocs']
  · intro hval1 rest hr
    cases hllm : w.llmRes <;>
      simp [p1Ask, hval1, hstore, hr, hllm, strOf, intercalate_nil]
  · cases hllm : w.llmRes <;>
      simp [fbAsk, hval, hemb, hstore, hllm, strOf, hdocs', intercalate_nil]

/-- Witness for C2's amended theorem at `"hola"` and a zero-document
query result. -/
theorem c2_witness :
    ((srvAsk (JSValue.vstr "hola") "203.0.113.5" "t0" wNoDocs).1 =
      ⟨200, [("answer", JVal.s noInfoAnswer), ("sources", JVal.arr [])]⟩ ∧
     ∀ sys user, ExtCall.complete sys user ∉
        (srvAsk (JSValue.vstr "hola") "203.0.113.5" "t0" wNoDocs).2) ∧
    ((p0Ask (JSValue.vstr "hola") "203.0.113.5" "t0" wNoDocs).1 =
      ⟨200, [("answer", JVal.s noInfoAnswer), ("sources", JVal.arr [])]⟩ ∧
     ∀ sys user, ExtCall.complete sys user ∉
        (p0Ask (JSValue.vstr "hola") "203.0.113.5" "t0" wNoDocs).2) ∧
    ((p2aAsk (JSValue.vstr "hola") "203.0.113.5" "t0" wNoDocs).1 =
      ⟨200, [("answer", JVal.s noInfoAnswer), ("sources", JVal.arr [])]⟩ ∧
     ∀ sys user, ExtCall.complete sys user ∉
        (p2aAsk (JSValue.vstr "hola") "203.0.113.5" "t0" wNoDocs).2) ∧
    (p1Validate (JSValue.vstr "hola") = none →
      ∀ rest, (⟨[[]], [[]]⟩ : QueryResult).documents = [] :: rest →
      ExtCall.complete p1SystemPrompt (p1UserPrompt "" "hola") ∈
        (p1Ask (JSValue.vstr "hola") "203.0.113.5" "t0" wNoDocs).2) ∧
    (ExtCall.complete fbSystemRag (ctxUserPrompt "" "hola") ∈
        (fbAsk (JSValue.vstr "hola") "203.0.113.5" "t0" wNoDocs).2) :=
  c2_zero_docs_amended "hola" "203.0.113.5" "t0" wNoDocs [1, 2] ⟨[[]], [[]]⟩
    (by decide) rfl rfl rfl

/-- Claim C3: when the vector-store interaction fails, the
fallback-tolerant revision still answers 200, with `mode` equal to
`"llm-only"` and `sources` equal to the empty list, while every revision
without a fallback branch turns the same failure into a server error:
503 in `src/server.js` and 500 in part_000, part_001 and the first
part_002 revision. -/
theorem c3_fallback_vs_strict (s ip ts m a : String) (w : World)
    (e : List Int)
    (hval : validateQuestion (JSValue.vstr s) = none)
    (hval1 : p1Validate (JSValue.vstr s) = none)
    (hemb : w.embedRes = .ok e)
    (hstore : w.storeRes = .failure m)
    (hllm : w.llmRes = .ok a) :
    ((fbAsk (JSValue.vstr s) ip ts w).1.status = 200 ∧
     (fbAsk (JSValue.vstr s) ip ts w).1.body.get "mode" =
       some (JVal.s "llm-only") ∧
     (fbAsk (JSValue.vstr s) ip ts w).1.body.get "sources" =
       some (JVal.arr [])) ∧
    (srvAsk (JSValue.vstr s) ip ts w).1.status = 503 ∧
    (p0Ask (JSValue.vstr s) ip ts w).1.status = 500 ∧
    (p1Ask (JSValue.vstr s) ip ts w).1.status = 500 ∧
    (p2aAsk (JSValue.vstr s) ip ts w).1.status = 500 := by
  refine ⟨⟨?_, ?_, ?_⟩, ?_, ?_, ?_, ?_⟩
  · simp [fbAsk, hval, hemb, hstore, hllm]
  · simp [fbAsk, hval, hemb, hstore, hllm, JObj.get]
  · simp [fbAsk, hval, hemb, hstore, hllm, JObj.get]
  · simp [srvAsk, hval, hemb, hstore]
  · simp [p0Ask, hval, hstore]
  · simp [p1Ask, hval1, hstore]
  · simp [p2aAsk, hval, hemb, hstore]

/-- Witness for C3 at `"hola"` and a failing vector store. -/
theorem c3_witness :
    ((fbAsk (JSValue.vstr "hola") "203.0.113.5" "t0" wStoreErr).1.status =
       200 ∧
     (fbAsk (JSValue.vstr "hola") "203.0.113.5" "t0" wStoreErr).1.body.get
       "mode" = some (JVal.s "llm-only") ∧
     (fbAsk (JSValue.vstr "hola") "203.0.113.5" "t0" wStoreErr).1.body.get
       "sources" = some (JVal.arr [])) ∧
    (srvAsk (JSValue.vstr "hola") "203.0.113.5" "t0" wStoreErr).1.status =
      503 ∧
    (p0Ask (JSValue.vstr "hola") "203.0.113.5" "t0" wStoreErr).1.status =
      500 ∧
    (p1Ask (JSValue.vstr "hola") "203.0.113.5" "t0" wStoreErr).1.status =
      500 ∧
    (p2aAsk (JSValue.vstr "hola") "203.0.113.5" "t0" wStoreErr).1.status =
      500 :=
  c3_fallback_vs_strict "hola" "203.0.113.5" "t0" "fetch failed" "respuesta"
    wStoreErr [1, 2] (by decide) (by decide) rfl rfl rfl

/-- Claim C5: for a valid question whose vector query succeeds with
`k` documents, `1 ≤ k ≤ 3`, the user-role message handed to the
completion provider — in `src/server.js` and in the fallback
revision — contains all `k` document texts joined by the blank-line
separator `"\n\n"`, followed by the literal, unmodified question
text. -/
theorem c5_prompt_contains_docs_and_question (s ip ts : String) (w : World)
    (e : List Int) (r : QueryResult) (docs : List String)
    (hval : validateQuestion (JSValue.vstr s) = none)
    (hemb : w.embedRes = .ok e)
    (hstore : w.storeRes = .ok r)
    (hdocs : r.documents.headD [] = docs)
    (hk1 : 1 ≤ docs.length) (hk3 : docs.length ≤ 3) :
    ExtCall.complete srvSystemPrompt
        (ctxUserPrompt (String.intercalate "\n\n" docs) s) ∈
      (srvAsk (JSValue.vstr s) ip ts w).2 ∧
    ExtCall.complete fbSystemRag
        (ctxUserPrompt (String.intercalate "\n\n" docs) s) ∈
      (fbAsk (JSValue.vstr s) ip ts w).2 ∧
    ∃ pre mid, ctxUserPrompt (String.intercalate "\n\n" docs) s =
      pre ++ String.intercalate "\n\n" docs ++ mid ++ s := by
  have hdocs' : r.documents.head?.getD [] = docs := by simpa using hdocs
  have hne : (docs.length == 0) = false := by
    simp only [beq_eq_false_iff_ne, ne_eq]
    omega
  refine ⟨?_, ?_, "CONTEXTO:\n", "\n\nPREGUNTA:\n", ?_⟩
  · cases hllm : w.llmRes <;>
      simp [srvAsk, hval, hemb, hstore, hllm, strOf, hdocs', hne]
  · cases hllm : w.llmRes <;>
      simp [fbAsk, hval, hemb, hstore, hllm, strOf, hdocs']
  · simp [ctxUserPrompt, String.append_assoc]

/-- Witness for C5 at `"hola"` and the one-document world `w0`. -/
theorem c5_witness :
    ExtCall.complete srvSystemPrompt
        (ctxUserPrompt (String.intercalate "\n\n"
          ["ARTÍCULO 1710.- Deber de prevención del daño."]) "hola") ∈
      (srvAsk (JSValue.vstr "hola") "203.0.113.5" "t0" w0).2 ∧
    ExtCall.complete fbSystemRag
        (ctxUserPrompt (String.intercalate "\n\n"
          ["ARTÍCULO 1710.- Deber de prevención del daño."]) "hola") ∈
      (fbAsk (JSValue.vstr "hola") "203.0.113.5" "t0" w0).2 ∧
    ∃ pre mid, ctxUserPrompt (String.intercalate "\n\n"
        ["ARTÍCULO 1710.- Deber de prevención del daño."]) "hola" =
      pre ++ String.intercalate "\n\n"
        ["ARTÍCULO 1710.- Deber de prevención del daño."] ++ mid ++ "hola" :=
  c5_prompt_contains_docs_and_question "hola" "203.0.113.5" "t0" w0 [1, 2]
    ⟨[["ARTÍCULO 1710.- Deber de prevención del daño."]],
     [[[("articulo", "1710")]]]⟩
    ["ARTÍCULO 1710.- Deber de prevención del daño."]
    (by decide) rfl rfl rfl (by decide) (by decide)

set_option maxRecDepth 8000 in
/-- Claim C6, counterexample: part_001's catch answers
`500 {error: "Error RAG", message: err.message}` — the raw exception
text sits in a field named `message`, and the body has no `detail`
field, so the claim fails for that revision. -/
theorem c6_counterexample :
    (p1Ask (JSValue.vstr "hola") "203.0.113.5" "t0" wStoreErr).1.status =
      500 ∧
    (p1Ask (JSValue.vstr "hola") "203.0.113.5" "t0"
      wStoreErr).1.body.get "detail" = none ∧
    (p1Ask (JSValue.vstr "hola") "203.0.113.5" "t0"
      wStoreErr).1.body.get "message" = some (JVal.s "fetch failed") := by
  refine ⟨by decide, by decide, by decide⟩

/-- Claim C6 as amended: when the orchestration raises, `src/server.js`
answers 503 and part_000, the first part_002 revision and the fallback
revision answer 500, each with a generic error message and the raw
exception text in a field named `detail`; part_001's revision answers
500 with the raw exception text in a field named `message` instead. -/
theorem c6_error_detail_amended (s ip ts m m2 : String) (w wl : World)
    (e e2 : List Int)
    (hval : validateQuestion (JSValue.vstr s) = none)
    (hval1 : p1Validate (JSValue.vstr s) = none)
    (hemb : w.embedRes = .ok e)
    (hstore : w.storeRes = .failure m)
    (hlemb : wl.embedRes = .ok e2)
    (hlllm : wl.llmRes = .failure m2) :
    (srvAsk (JSValue.vstr s) ip ts w).1 =
      ⟨503, [("error", JVal.s "Servicio temporalmente no disponible"),
             ("detail", JVal.s m)]⟩ ∧
    (p0Ask (JSValue.vstr s) ip ts w).1 =
      ⟨500, [("error", JVal.s "Error interno"), ("detail", JVal.s m)]⟩ ∧
    (p2aAsk (JSValue.vstr s) ip ts w).1 =
      ⟨500, [("error", JVal.s "Error interno"), ("detail", JVal.s m)]⟩ ∧
    (p1Ask (JSValue.vstr s) ip ts w).1 =
      ⟨500, [("error", JVal.s "Error RAG"), ("message", JVal.s m)]⟩ ∧
    (fbAsk (JSValue.vstr s) ip ts wl).1 =
      ⟨500, [("error", JVal.s "Error interno"), ("detail", JVal.s m2)]⟩ := by
  refine ⟨?_, ?_, ?_, ?_, ?_⟩
  · simp [srvAsk, hval, hemb, hstore, srvCatchBody]
  · simp [p0Ask, hval, hstore, internalErrorBody]
  · simp [p2aAsk, hval, hemb, hstore, internalErrorBody]
  · simp [p1Ask, hval1, hstore]
  · cases hst : wl.storeRes <;>
      simp [fbAsk, hval, hlemb, hst, hlllm, internalErrorBody]

/-- Witness for C6 at `"hola"`, a failing vector store for the strict
revisions and a failing LLM for the fallback revision. -/
theorem c6_witness :
    (srvAsk (JSValue.vstr "hola") "203.0.113.5" "t0" wStoreErr).1 =
      ⟨503, [("error", JVal.s "Servicio temporalmente no disponible"),
             ("detail", JVal.s "fetch failed")]⟩ ∧
    (p0Ask (JSValue.vstr "hola") "203.0.113.5" "t0" wStoreErr).1 =
      ⟨500, [("error", JVal.s "Error interno"),
             ("detail", JVal.s "fetch failed")]⟩ ∧
    (p2aAsk (JSValue.vstr "hola") "203.0.113.5" "t0" wStoreErr).1 =
      ⟨500, [("error", JVal.s "Error interno"),
             ("detail", JVal.s "fetch failed")]⟩ ∧
    (p1Ask (JSValue.vstr "hola") "203.0.113.5" "t0" wStoreErr).1 =
      ⟨500, [("error", JVal.s "Error RAG"),
             ("message", JVal.s "fetch failed")]⟩ ∧
    (fbAsk (JSValue.vstr "hola") "203.0.113.5" "t0" wLlmErr).1 =
      ⟨500, [("error", JVal.s "Error interno"),
             ("detail", JVal.s "llm down")]⟩ :=
  c6_error_detail_amended "hola" "203.0.113.5" "t0" "fetch failed" "llm down"
    wStoreErr wLlmErr [1, 2] [1, 2] (by decide) (by decide) rfl rfl rfl rfl

/-- Claim C7, counterexample: in `src/server.js` no log write is
attempted on the invalid-input outcome, the vector-store-failure
outcome, or the zero-document outcome — only the full success path
writes one record. -/
theorem c7_counterexample :
    logWritesOf (srvAsk (JSValue.vstr "") "203.0.113.5" "t0" w0).2 = [] ∧
    logWritesOf (srvAsk (JSValue.vstr "hola") "203.0.113.5" "t0"
      wStoreErr).2 = [] ∧
    logWritesOf (srvAsk (JSValue.vstr "hola") "203.0.113.5" "t0"
      wNoDocs).2 = [] ∧
    logWritesOf (srvAsk (JSValue.vstr "hola") "203.0.113.5" "t0" w0).2 =
      [srvOkLog "203.0.113.5" "t0"] := by
  refine ⟨by decide, by decide, by decide, by decide⟩

/-- Claim C7 as amended: only part_001's revision attempts a log write
on every outcome (exactly one per request); `src/server.js`, part_000
and both part_002 revisions attempt exactly one log write on their
full success path and none on any other outcome (invalid input,
embedding failure, vector-store failure, zero documents where that
branch exists, or completion failure) — stated as an exact
characterization of each revision's log writes over every world; and in
every revision a failure of the log write never changes the HTTP
response. -/
theorem c7_logging_amended (q : JSValue) (ip ts : String) (w : World) :
    logWritesOf (srvAsk q ip ts w).2 =
      (if strictRagSuccess q w then [srvOkLog ip ts] else []) ∧
    logWritesOf (p2aAsk q ip ts w).2 =
      (if strictRagSuccess q w then [srvOkLog ip ts] else []) ∧
    logWritesOf (p0Ask q ip ts w).2 =
      (if p0Success q w then [srvOkLog ip ts] else []) ∧
    logWritesOf (fbAsk q ip ts w).2 =
      (if fbSuccess q w then
        [fbOkLog ip (if w.storeRes.isOk then "rag" else "fallback") ts]
       else []) ∧
    (logWritesOf (p1Ask q ip ts w).2).length = 1 ∧
    (∀ b, (srvAsk q ip ts (w.setLogFails b)).1 = (srvAsk q ip ts w).1 ∧
      (p0Ask q ip ts (w.setLogFails b)).1 = (p0Ask q ip ts w).1 ∧
      (p1Ask q ip ts (w.setLogFails b)).1 = (p1Ask q ip ts w).1 ∧
      (p2aAsk q ip ts (w.setLogFails b)).1 = (p2aAsk q ip ts w).1 ∧
      (fbAsk q ip ts (w.setLogFails b)).1 = (fbAsk q ip ts w).1) := by
  obtain ⟨em, st, llm, lf⟩ := w
  refine ⟨?_, ?_, ?_, ?_, ?_, ?_⟩
  · cases hval : validateQuestion q with
    | some r => simp [srvAsk, hval, logWritesOf, strictRagSuccess]
    | none =>
      cases em with
      | failure m =>
        simp [srvAsk, hval, logWritesOf, strictRagSuccess, CallResult.isOk]
      | ok e =>
        cases st with
        | failure m =>
          simp [srvAsk, hval, logWritesOf, strictRagSuccess, CallResult.isOk]
        | ok r =>
          by_cases hd : ((r.documents.head?.getD []).length == 0) = true
          · simp [srvAsk, hval, hd, logWritesOf, strictRagSuccess,
              CallResult.isOk]
          · have hd' : ((r.documents.head?.getD []).length == 0) = false :=
              Bool.eq_false_iff.mpr hd
            cases llm <;>
              simp [srvAsk, hval, hd', logWritesOf, strictRagSuccess,
                CallResult.isOk]
  · cases hval : validateQuestion q with
    | some r => simp [p2aAsk, hval, logWritesOf, strictRagSuccess]
    | none =>
      cases em with
      | failure m =>
        simp [p2aAsk, hval, logWritesOf, strictRagSuccess, CallResult.isOk]
      | ok e =>
        cases st with
        | failure m =>
          simp [p2aAsk, hval, logWritesOf, strictRagSuccess, CallResult.isOk]
        | ok r =>
          by_cases hd : ((r.documents.head?.getD []).length == 0) = true
          · simp [p2aAsk, hval, hd, logWritesOf, strictRagSuccess,
              CallResult.isOk]
          · have hd' : ((r.documents.head?.getD []).length == 0) = false :=
              Bool.eq_false_iff.mpr hd
            cases llm <;>
              simp [p2aAsk, hval, hd', logWritesOf, strictRagSuccess,
                CallResult.isOk]
  · cases hval : validateQuestion q with
    | some r => simp [p0Ask, hval, logWritesOf, p0Success]
    | none =>
      cases st with
      | failure m =>
        simp [p0Ask, hval, logWritesOf, p0Success, CallResult.isOk]
      | ok r =>
        by_cases hd : ((r.documents.head?.getD []).length == 0) = true
        · simp [p0Ask, hval, hd, logWritesOf, p0Success, CallResult.isOk]
        · have hd' : ((r.documents.head?.getD []).length == 0) = false :=
            Bool.eq_false_iff.mpr hd
          cases llm <;>
            simp [p0Ask, hval, hd', logWritesOf, p0Success, CallResult.isOk]
  · cases hval : validateQuestion q with
    | some r => simp [fbAsk, hval, logWritesOf, fbSuccess]
    | none =>
      cases em with
      | failure m =>
        simp [fbAsk, hval, logWritesOf, fbSuccess, CallResult.isOk]
      | ok e =>
        cases llm with
        | failure m =>
          cases st <;>
            simp [fbAsk, hval, logWritesOf, fbSuccess, CallResult.isOk]
        | ok a =>
          cases st <;>
            simp [fbAsk, hval, logWritesOf, fbSuccess, CallResult.isOk]
  · cases hval1 : p1Validate q with
    | some r => simp [p1Ask, hval1, logWritesOf]
    | none =>
      cases st with
      | failure m => simp [p1Ask, hval1, logWritesOf]
      | ok r =>
        cases hdocs : r.documents with
        | nil => simp [p1Ask, hval1, hdocs, logWritesOf]
        | cons d rest =>
          cases llm <;> simp [p1Ask, hval1, hdocs, logWritesOf]
  · intro b
    exact ⟨rfl, rfl, rfl, rfl, rfl⟩

/-- Witness for C7: the characterization instantiated at `"hola"`
against the fully-successful world `w0`, and its concrete readings. -/
theorem c7_witness :
    (logWritesOf (srvAsk (JSValue.vstr "hola") "203.0.113.5" "t0" w0).2 =
      (if strictRagSuccess (JSValue.vstr "hola") w0 then
        [srvOkLog "203.0.113.5" "t0"] else []) ∧
     logWritesOf (p2aAsk (JSValue.vstr "hola") "203.0.113.5" "t0" w0).2 =
      (if strictRagSuccess (JSValue.vstr "hola") w0 then
        [srvOkLog "203.0.113.5" "t0"] else []) ∧
     logWritesOf (p0Ask (JSValue.vstr "hola") "203.0.113.5" "t0" w0).2 =
      (if p0Success (JSValue.vstr "hola") w0 then
        [srvOkLog "203.0.113.5" "t0"] else []) ∧
     logWritesOf (fbAsk (JSValue.vstr "hola") "203.0.113.5" "t0" w0).2 =
      (if fbSuccess (JSValue.vstr "hola") w0 then
        [fbOkLog "203.0.113.5"
          (if w0.storeRes.isOk then "rag" else "fallback") "t0"]
       else []) ∧
     (logWritesOf
        (p1Ask (JSValue.vstr "hola") "203.0.113.5" "t0" w0).2).length = 1 ∧
     (∀ b, (srvAsk (JSValue.vstr "hola") "203.0.113.5" "t0"
          (w0.setLogFails b)).1 =
        (srvAsk (JSValue.vstr "hola") "203.0.113.5" "t0" w0).1 ∧
      (p0Ask (JSValue.vstr "hola") "203.0.113.5" "t0"
          (w0.setLogFails b)).1 =
        (p0Ask (JSValue.vstr "hola") "203.0.113.5" "t0" w0).1 ∧
      (p1Ask (JSValue.vstr "hola") "203.0.113.5" "t0"
          (w0.setLogFails b)).1 =
        (p1Ask (JSValue.vstr "hola") "203.0.113.5" "t0" w0).1 ∧
      (p2aAsk (JSValue.vstr "hola") "203.0.113.5" "t0"
          (w0.setLogFails b)).1 =
        (p2aAsk (JSValue.vstr "hola") "203.0.113.5" "t0" w0).1 ∧
      (fbAsk (JSValue.vstr "hola") "203.0.113.5" "t0"
          (w0.setLogFails b)).1 =
        (fbAsk (JSValue.vstr "hola") "203.0.113.5" "t0" w0).1)) ∧
    strictRagSuccess (JSValue.vstr "hola") w0 = true ∧
    logWritesOf (srvAsk (JSValue.vstr " ") "203.0.113.5" "t0" w0).2 = [] :=
  ⟨c7_logging_amended (JSValue.vstr "hola") "203.0.113.5" "t0" w0,
   by decide, by decide⟩

/-- Claim C8 as amended: `GET /health` answers 200 with body exactly
`{status: "ok", service: "legal-backend"}` in every revision except
part_001's, whose body is `{status: "ok"}` without the `service`
field. -/
theorem c8_health_amended :
    srvHealth = ⟨200, [("status", JVal.s "ok"),
                       ("service", JVal.s "legal-backend")]⟩ ∧
    idxHealth = ⟨200, [("status", JVal.s "ok"),
                       ("service", JVal.s "legal-backend")]⟩ ∧
    p0Health = ⟨200, [("status", JVal.s "ok"),
                      ("service", JVal.s "legal-backend")]⟩ ∧
    p2aHealth = ⟨200, [("status", JVal.s "ok"),
                       ("service", JVal.s "legal-backend")]⟩ ∧
    fbHealth = ⟨200, [("status", JVal.s "ok"),
                      ("service", JVal.s "legal-backend")]⟩ ∧
    p1Health = ⟨200, [("status", JVal.s "ok")]⟩ := by
  refine ⟨rfl, rfl, rfl, rfl, rfl, rfl⟩

/-- Claim C9: in the fallback-tolerant revision every 200 response from
`/ask` carries a `mode` field whose value is `"rag"` or `"llm-only"`,
and `sources` is a non-empty list only when `mode` is `"rag"`. -/
theorem c9_mode_invariant (q : JSValue) (ip ts : String) (w : World)
    (h200 : (fbAsk q ip ts w).1.status = 200) :
    ∃ mv, (fbAsk q ip ts w).1.body.get "mode" = some (JVal.s mv) ∧
      (mv = "rag" ∨ mv = "llm-only") ∧
      ∀ srcs, (fbAsk q ip ts w).1.body.get "sources" =
          some (JVal.arr srcs) → srcs ≠ [] → mv = "rag" := by
  cases hval : validateQuestion q with
  | some r => simp [fbAsk, hval] at h200
  | none =>
    cases hemb : w.embedRes with
    | failure m => simp [fbAsk, hval, hemb] at h200
    | ok e =>
      cases hllm : w.llmRes with
      | failure m => simp [fbAsk, hval, hemb, hllm] at h200
      | ok a =>
        cases hstore : w.storeRes with
        | failure m =>
          refine ⟨"llm-only", ?_, Or.inr rfl, ?_⟩
          · simp [fbAsk, hval, hemb, hllm, hstore, JObj.get]
          · intro srcs hsrcs hne
            simp [fbAsk, hval, hemb, hllm, hstore, JObj.get] at hsrcs
            exact absurd hsrcs hne
        | ok r =>
          refine ⟨"rag", ?_, Or.inl rfl, fun _ _ _ => rfl⟩
          simp [fbAsk, hval, hemb, hllm, hstore, JObj.get]

/-- Witness for C9 at `"hola"` against the successful world `w0`. -/
theorem c9_witness :
    ∃ mv, (fbAsk (JSValue.vstr "hola") "203.0.113.5" "t0" w0).1.body.get
        "mode" = some (JVal.s mv) ∧
      (mv = "rag" ∨ mv = "llm-only") ∧
      ∀ srcs, (fbAsk (JSValue.vstr "hola") "203.0.113.5" "t0"
          w0).1.body.get "sources" = some (JVal.arr srcs) → srcs ≠ [] →
        mv = "rag" :=
  c9_mode_invariant (JSValue.vstr "hola") "203.0.113.5" "t0" w0 (by decide)

set_option maxHeartbeats 1000000 in
/-- Claim C10: log records never carry the question or answer text.
Noninterference form: two requests with equal question lengths, equal
validation outcomes and the same external-world outcomes produce
identical log records (timestamp and ip held fixed here, being explicit
parameters); the records are also unchanged when only the LLM's answer
text differs; and every log field is one of ip, status, mode, question
length, error message, timestamp. -/
theorem c10_log_noninterference (s1 s2 ip ts a1 a2 : String) (w : World)
    (hlen : s1.length = s2.length) :
    (validateQuestion (JSValue.vstr s1) = validateQuestion (JSValue.vstr s2) →
      logWritesOf (srvAsk (JSValue.vstr s1) ip ts w).2 =
        logWritesOf (srvAsk (JSValue.vstr s2) ip ts w).2) ∧
    (validateQuestion (JSValue.vstr s1) = validateQuestion (JSValue.vstr s2) →
      logWritesOf (fbAsk (JSValue.vstr s1) ip ts w).2 =
        logWritesOf (fbAsk (JSValue.vstr s2) ip ts w).2) ∧
    (p1Validate (JSValue.vstr s1) = p1Validate (JSValue.vstr s2) →
      logWritesOf (p1Ask (JSValue.vstr s1) ip ts w).2 =
        logWritesOf (p1Ask (JSValue.vstr s2) ip ts w).2) ∧
    logWritesOf (srvAsk (JSValue.vstr s1) ip ts (w.setLlm (.ok a1))).2 =
      logWritesOf (srvAsk (JSValue.vstr s1) ip ts (w.setLlm (.ok a2))).2 ∧
    logWritesOf (p1Ask (JSValue.vstr s1) ip ts (w.setLlm (.ok a1))).2 =
      logWritesOf (p1Ask (JSValue.vstr s1) ip ts (w.setLlm (.ok a2))).2 ∧
    logWritesOf (fbAsk (JSValue.vstr s1) ip ts (w.setLlm (.ok a1))).2 =
      logWritesOf (fbAsk (JSValue.vstr s1) ip ts (w.setLlm (.ok a2))).2 ∧
    (∀ rec ∈ logWritesOf (srvAsk (JSValue.vstr s1) ip ts w).2,
      ∀ kv ∈ rec, kv.1 ∈ (["ip", "status", "ts"] : List String)) ∧
    (∀ rec ∈ logWritesOf (fbAsk (JSValue.vstr s1) ip ts w).2,
      ∀ kv ∈ rec, kv.1 ∈ (["ip", "status", "mode", "ts"] : List String)) ∧
    (∀ rec ∈ logWritesOf (p1Ask (JSValue.vstr s1) ip ts w).2,
      ∀ kv ∈ rec, kv.1 ∈
        (["timestamp", "ip", "questionLength", "status", "error"] :
          List String)) := by
  obtain ⟨em, st, llm, lf⟩ := w
  refine ⟨?_, ?_, ?_, ?_, ?_, ?_, ?_, ?_, ?_⟩
  · intro hv
    cases hval1 : validateQuestion (JSValue.vstr s1) with
    | some r =>
      rw [hval1] at hv
      simp [srvAsk, hval1, hv.symm, logWritesOf]
    | none =>
      rw [hval1] at hv
      cases em with
      | failure m => simp [srvAsk, hval1, hv.symm, logWritesOf]
      | ok e =>
        cases st with
        | failure m => simp [srvAsk, hval1, hv.symm, logWritesOf]
        | ok r =>
          by_cases hd : ((r.documents.head?.getD []).length == 0) = true
          · simp [srvAsk, hval1, hv.symm, hd, logWritesOf]
          · have hd' : ((r.documents.head?.getD []).length == 0) = false :=
              Bool.eq_false_iff.mpr hd
            cases llm <;> simp [srvAsk, hval1, hv.symm, hd', logWritesOf]
  · intro hv
    cases hval1 : validateQuestion (JSValue.vstr s1) with
    | some r =>
      rw [hval1] at hv
      simp [fbAsk, hval1, hv.symm, logWritesOf]
    | none =>
      rw [hval1] at hv
      cases em with
      | failure m => simp [fbAsk, hval1, hv.symm, logWritesOf]
      | ok e =>
        cases llm with
        | failure m => cases st <;> simp [fbAsk, hval1, hv.symm, logWritesOf]
        | ok a => cases st <;> simp [fbAsk, hval1, hv.symm, logWritesOf]
  · intro hv
    cases hval1 : p1Validate (JSValue.vstr s1) with
    | some r =>
      rw [hval1] at hv
      simp [p1Ask, hval1, hv.symm, logWritesOf, p1LogRecord, jsLengthOrZero,
        hlen]
    | none =>
      rw [hval1] at hv
      cases st with
      | failure m =>
        simp [p1Ask, hval1, hv.symm, logWritesOf, p1LogRecord, strOf, hlen]
      | ok r =>
        cases hdocs : r.documents with
        | nil =>
          simp [p1Ask, hval1, hv.symm, hdocs, logWritesOf, p1LogRecord,
            strOf, hlen]
        | cons d rest =>
          cases llm <;>
            simp [p1Ask, hval1, hv.symm, hdocs, logWritesOf, p1LogRecord,
              strOf, hlen]
  · cases hval1 : validateQuestion (JSValue.vstr s1) with
    | some r => simp [srvAsk, hval1, logWritesOf, World.setLlm]
    | none =>
      cases em with
      | failure m => simp [srvAsk, hval1, logWritesOf, World.setLlm]
      | ok e =>
        cases st with
        | failure m => simp [srvAsk, hval1, logWritesOf, World.setLlm]
        | ok r =>
          by_cases hd : ((r.documents.head?.getD []).length == 0) = true
          · simp [srvAsk, hval1, hd, logWritesOf, World.setLlm]
          · have hd' : ((r.documents.head?.getD []).length == 0) = false :=
              Bool.eq_false_iff.mpr hd
            simp [srvAsk, hval1, hd', logWritesOf, World.setLlm]
  · cases hval1 : p1Validate (JSValue.vstr s1) with
    | some r => simp [p1Ask, hval1, logWritesOf, World.setLlm]
    | none =>
      cases st with
      | failure m => simp [p1Ask, hval1, logWritesOf, World.setLlm]
      | ok r =>
        cases hdocs : r.documents with
        | nil => simp [p1Ask, hval1, hdocs, logWritesOf, World.setLlm]
        | cons d rest => simp [p1Ask, hval1, hdocs, logWritesOf, World.setLlm]
  · cases hval1 : validateQuestion (JSValue.vstr s1) with
    | some r => simp [fbAsk, hval1, logWritesOf, World.setLlm]
    | none =>
      cases em with
      | failure m => simp [fbAsk, hval1, logWritesOf, World.setLlm]
      | ok e => cases st <;> simp [fbAsk, hval1, logWritesOf, World.setLlm]
  · cases hval1 : validateQuestion (JSValue.vstr s1) with
    | some r => simp [srvAsk, hval1, logWritesOf]
    | none =>
      cases em with
      | failure m => simp [srvAsk, hval1, logWritesOf]
      | ok e =>
        cases st with
        | failure m => simp [srvAsk, hval1, logWritesOf]
        | ok r =>
          by_cases hd : ((r.documents.head?.getD []).length == 0) = true
          · simp [srvAsk, hval1, hd, logWritesOf]
          · have hd' : ((r.documents.head?.getD []).length == 0) = false :=
              Bool.eq_false_iff.mpr hd
            cases llm <;>
              (simp [srvAsk, hval1, hd', logWritesOf, srvOkLog]; try tauto)
  · cases hval1 : validateQuestion (JSValue.vstr s1) with
    | some r => simp [fbAsk, hval1, logWritesOf]
    | none =>
      cases em with
      | failure m => simp [fbAsk, hval1, logWritesOf]
      | ok e =>
        cases llm with
        | failure m => cases st <;> simp [fbAsk, hval1, logWritesOf]
        | ok a =>
          cases st <;> (simp [fbAsk, hval1, logWritesOf, fbOkLog]; try tauto)
  · cases hval1 : p1Validate (JSValue.vstr s1) with
    | some r => simp [p1Ask, hval1, logWritesOf, p1LogRecord]; tauto
    | none =>
      cases st with
      | failure m => simp [p1Ask, hval1, logWritesOf, p1LogRecord]; tauto
      | ok r =>
        cases hdocs : r.documents with
        | nil =>
          simp [p1Ask, hval1, hdocs, logWritesOf, p1LogRecord]; tauto
        | cons d rest =>
          cases llm <;>
            (simp [p1Ask, hval1, hdocs, logWritesOf, p1LogRecord]; try tauto)

/-- Witness for C10 at the equal-length, equally-valid questions
`"hola"` and `"chau"`. -/
theorem c10_witness :
    logWritesOf (p1Ask (JSValue.vstr "hola") "203.0.113.5" "t0" w0).2 =
      logWritesOf (p1Ask (JSValue.vstr "chau") "203.0.113.5" "t0" w0).2 ∧
    logWritesOf (srvAsk (JSValue.vstr "hola") "203.0.113.5" "t0"
        (w0.setLlm (.ok "respuesta A"))).2 =
      logWritesOf (srvAsk (JSValue.vstr "hola") "203.0.113.5" "t0"
        (w0.setLlm (.ok "respuesta B"))).2 :=
  ⟨(c10_log_noninterference "hola" "chau" "203.0.113.5" "t0" "a" "b" w0
      (by decide)).2.2.1 (by decide),
   (c10_log_noninterference "hola" "chau" "203.0.113.5" "t0"
      "respuesta A" "respuesta B" w0 (by decide)).2.2.2.1⟩

end LegalBackend
